import Mathlib

/-!
Shallow embedding of the two core subsystems of the repository:
the tee-time discovery heuristics of `findTeeTimes` (tools file) and the
browsing / chat-turn handling of `DashAgent` (`src/server.ts`).
-/

namespace AgentsStarter

/-- ASCII case folding of a character code, mirroring what a JavaScript
case-insensitive regex does for the ASCII letters of the pattern. -/
def foldNat (n : Nat) : Nat := if 65 ≤ n && n ≤ 90 then n + 32 else n

/-- Case-insensitive character comparison. -/
def charEqCI (c d : Char) : Bool := foldNat c.toNat == foldNat d.toNat

/-- Exact list-prefix test (case sensitive). -/
def isPre : List Char → List Char → Bool
  | [], _ => true
  | _ :: _, [] => false
  | c :: cs, d :: ds => c == d && isPre cs ds

/-- Exact substring occurrence test: `hasSub needle hay`. -/
def hasSub (needle : List Char) : List Char → Bool
  | [] => isPre needle []
  | c :: t => isPre needle (c :: t) || hasSub needle t

/-- Case-insensitive list-prefix test. -/
def isPreCI : List Char → List Char → Bool
  | [], _ => true
  | _ :: _, [] => false
  | c :: cs, d :: ds => charEqCI c d && isPreCI cs ds

/-- Case-insensitive substring occurrence test. -/
def hasSubCI (needle : List Char) : List Char → Bool
  | [] => isPreCI needle []
  | c :: t => isPreCI needle (c :: t) || hasSubCI needle t

/-- The regex test `/tee times|book(ing)? tee times|reserve/i.test(text)`
from the `page.evaluate` callbacks of `findTeeTimes`: the optional group is
expanded into its two literal alternatives, alternation is an any-occurrence
test. -/
def matchesTeePattern (s : String) : Bool :=
  hasSubCI "tee times".toList s.toList ||
  hasSubCI "book tee times".toList s.toList ||
  hasSubCI "booking tee times".toList s.toList ||
  hasSubCI "reserve".toList s.toList

/-- Tag of an interactive element, the two categories the code queries. -/
inductive Tag
  | a
  | button
deriving DecidableEq

/-- Snapshot of one interactive element as seen by the `page.evaluate`
callbacks: its tag, its `textContent`, for anchors the value of the `href`
attribute (`none` when absent, in which case the DOM property `el.href` is
the empty string), and for buttons the `href` of the first nested anchor
found by `el.querySelector("a")`, if any. -/
structure Elem where
  tag : Tag
  text : String
  href : Option String
  nestedHref : Option String
deriving DecidableEq

/-- Model of `document.querySelectorAll("a")` over the page snapshot. -/
def anchors (page : List Elem) : List Elem :=
  page.filter fun e => e.tag == Tag.a

/-- Model of `document.querySelectorAll("button")` over the page snapshot. -/
def buttons (page : List Elem) : List Elem :=
  page.filter fun e => e.tag == Tag.button

/-- The `page.evaluate((sel) => ...)` callback of `findTeeTimes`
(lines 228-244): scan the selected elements in document order; on the first
element whose text matches the pattern, return its `href` if it is an anchor
(the DOM property, `""` when the attribute is absent), and for a button the
nested link's href if present, else `null` (the scan stops either way). -/
def scanForHref : List Elem → Option String
  | [] => none
  | e :: rest =>
    if matchesTeePattern e.text then
      match e.tag with
      | Tag.a => some (e.href.getD "")
      | Tag.button =>
        match e.nestedHref with
        | some h => some h
        | none => none
    else scanForHref rest

/-- JavaScript truthiness of the `teeTimesHref` variable
(`string | null`): `null` and `""` are falsy. -/
def truthy : Option String → Bool
  | none => false
  | some s => !(s == "")

/-- The `for (const selector of linkSelectors)` loop of `findTeeTimes`
(lines 219-249): try selector `"a"` then `"button"`; a `waitForSelector`
timeout (no element of that tag) skips the evaluate and leaves the variable
unchanged; a truthy result breaks out of the loop. -/
def findHrefLoop (page : List Elem) : Option String :=
  let afterA := if (anchors page).isEmpty then none else scanForHref (anchors page)
  if truthy afterA then afterA
  else if (buttons page).isEmpty then afterA
  else scanForHref (buttons page)

/-- The click-fallback evaluate (lines 253-263): first element of
`document.querySelectorAll("a,button")` whose text matches the pattern. -/
def firstMatch (page : List Elem) : Option Elem :=
  page.find? fun e => matchesTeePattern e.text

/-- Outcome of the entry-point location phase of `findTeeTimes`. -/
inductive EntryOutcome
  | direct (href : String)
  | clicked (e : Elem)
  | noEntry
deriving DecidableEq

/-- Entry-point phase (lines 219-275): if the selector loop produced a truthy
href, navigate to it directly; otherwise click the first matching element if
one exists, else report that no entry point was found. -/
def entryPhase (page : List Elem) : EntryOutcome :=
  let h := findHrefLoop page
  if truthy h then EntryOutcome.direct (h.getD "")
  else
    match firstMatch page with
    | some e => EntryOutcome.clicked e
    | none => EntryOutcome.noEntry

/-- The fixed priority-ordered date selector list (lines 279-286). -/
def dateSelectors : List String :=
  ["input[type=\"date\"]", "input[name*=\"date\"]", "input[id*=\"date\"]",
   ".datepicker", ".date-picker", "[aria-label*=\"date\"]"]

/-- The date-setting loop of `findTeeTimes` (lines 288-309). `resolve sel`
models the page: `none` when `waitForSelector` times out (the thrown error is
caught and the loop continues), `some tagName` when the selector resolves,
with `tagName` the lowercased tag of the first matching element as read by
`page.$eval`. The loop breaks at the first selector resolving to an `input`;
a selector resolving to a non-input element is skipped. -/
def findDateStrategy (resolve : String → Option String) : List String → Option String
  | [] => none
  | sel :: rest =>
    match resolve sel with
    | none => findDateStrategy resolve rest
    | some tagName =>
      if tagName == "input" then some sel else findDateStrategy resolve rest

/-- The selectors actually attempted by the date-setting loop, in order. -/
def triedStrategies (resolve : String → Option String) : List String → List String
  | [] => []
  | sel :: rest =>
    match resolve sel with
    | none => sel :: triedStrategies resolve rest
    | some tagName =>
      if tagName == "input" then [sel] else sel :: triedStrategies resolve rest

/-- Whether a selector resolves to an actual input-tagged element. -/
def resolvesToInput (resolve : String → Option String) (sel : String) : Bool :=
  match resolve sel with
  | some tagName => tagName == "input"
  | none => false

/-- Observable page-automation actions performed by `findTeeTimes` after the
landing page has loaded. -/
inductive NavAction
  | gotoHref (href : String)
  | clickElem (e : Elem)
  | waitForNav (timeoutMs : Nat)
  | setValue (selector : String) (value : String)
  | dispatchInput (selector : String)
  | dispatchChange (selector : String)
  | sleep (ms : Nat)
deriving DecidableEq

/-- Actions of the date-priming phase: on the winning selector the code sets
the input's value, dispatches `input` and `change` events (lines 295-299),
and afterwards pauses 2000 ms (line 313); when no strategy wins it only logs
and performs no page action. -/
def dateActions (resolve : String → Option String) (sels : List String) (d : String) :
    List NavAction :=
  match findDateStrategy resolve sels with
  | some sel =>
    [NavAction.setValue sel d, NavAction.dispatchInput sel, NavAction.dispatchChange sel,
     NavAction.sleep 2000]
  | none => []

/-- Date phase of `findTeeTimes` (lines 277-317): only runs when a date
argument was supplied. -/
def dateActs (resolve : String → Option String) : Option String → List NavAction
  | none => []
  | some d => dateActions resolve dateSelectors d

/-- Result of the post-landing flow of `findTeeTimes`. -/
inductive FindResult
  | notFound
  | success (url : String)
deriving DecidableEq

/-- The string value `findTeeTimes` returns for each normal outcome. -/
def resultString : FindResult → String
  | FindResult.notFound => "No tee times link or button found on the landing page."
  | FindResult.success u => u

/-- The post-landing flow of `findTeeTimes` (lines 216-321), as the returned
outcome plus the trace of page actions: locate the entry point (direct
navigation, click plus a navigation wait bounded by 10000 ms, or the
not-found return, which skips the date phase), then the optional date phase,
then report `page.url()` (the `finalUrl` parameter). -/
def runFindTeeTimes (page : List Elem) (date : Option String)
    (resolve : String → Option String) (finalUrl : String) :
    FindResult × List NavAction :=
  match entryPhase page with
  | EntryOutcome.noEntry => (FindResult.notFound, [])
  | EntryOutcome.direct h =>
    (FindResult.success finalUrl, NavAction.gotoHref h :: dateActs resolve date)
  | EntryOutcome.clicked e =>
    (FindResult.success finalUrl,
     NavAction.clickElem e :: NavAction.waitForNav 10000 :: dateActs resolve date)

/-- Count of pages opened/closed by one `findTeeTimes` invocation. -/
structure PageState where
  opened : Nat
  closed : Nat
deriving DecidableEq

/-- Whether `browser.newPage()` (line 211) itself throws. -/
inductive NewPageResult
  | fails (err : String)
  | succeeds
deriving DecidableEq

/-- Outcome of the rest of the inner `try` body of `findTeeTimes` once the
page is open: a normal return, or an exception thrown mid-flow. -/
inductive BodyOutcome
  | normal (r : FindResult)
  | raise (err : String)
deriving DecidableEq

/-- The string built by the inner `catch` of `findTeeTimes` (line 325). -/
def teeErrorString (e : String) : String := "Error finding tee times: " ++ e

/-- Model of `page = await browser.newPage()`: on success the page counts as opened. -/
def newPageOp (np : NewPageResult) (s : PageState) : Except String Unit × PageState :=
  match np with
  | NewPageResult.fails e => (Except.error e, s)
  | NewPageResult.succeeds => (Except.ok (), ⟨s.opened + 1, s.closed⟩)

/-- Model of `await page.close()` in the `finally` block (line 328). -/
def closePageOp (s : PageState) : PageState := ⟨s.opened, s.closed + 1⟩

/-- The `try`/`catch`/`finally` of `findTeeTimes` (lines 209-331): `page`
starts as `null`; `newPage` runs inside the `try`; the `catch` converts any
thrown error into the error string; the `finally` closes the page exactly
when it is non-null, on every exit path. -/
def findTeeTimesSession (np : NewPageResult) (body : BodyOutcome) (s0 : PageState) :
    Except String String × PageState :=
  match newPageOp np s0 with
  | (Except.error e, s1) => (Except.ok (teeErrorString e), s1)
  | (Except.ok _, s1) =>
    let bodyRes : Except String String :=
      match body with
      | BodyOutcome.normal r => Except.ok (resultString r)
      | BodyOutcome.raise err => Except.error err
    let s2 := closePageOp s1
    match bodyRes with
    | Except.ok v => (Except.ok v, s2)
    | Except.error e => (Except.ok (teeErrorString e), s2)

/-- Count of browser sessions launched/closed by `DashAgent.browse`. -/
structure Sessions where
  launched : Nat
  closed : Nat
deriving DecidableEq

/-- Behavior of one URL's processing inside the loop body of
`DashAgent.browse`: `puppeteer.launch` itself throws; some later step
(`newPage`, `goto`, `waitForSelector`, `content`, `$$eval`) throws before
the push; the page work succeeds and its value is pushed but the awaited
`browser.close()` itself throws (the `catch` then also pushes the error
string for the same URL); or everything succeeds. -/
inductive UrlBehavior
  | launchFails (err : String)
  | failsAfterLaunch (err : String)
  | closeFails (value : String) (err : String)
  | succeeds (value : String)
deriving DecidableEq

/-- Discriminator for the close-failure path of `DashAgent.browse`. -/
def isCloseFails : UrlBehavior → Bool
  | UrlBehavior.closeFails _ _ => true
  | _ => false

/-- The string pushed by the `catch` of `DashAgent.browse` (line 128). -/
def browseErrorString (url err : String) : String :=
  "Error browsing URL " ++ url ++ ": " ++ err

namespace DashAgent

/-- Model of `const browser = await puppeteer.launch(browserInstance)` (line 113). -/
def launchOp (b : UrlBehavior) (s : Sessions) : Except String Unit × Sessions :=
  match b with
  | UrlBehavior.launchFails e => (Except.error e, s)
  | _ => (Except.ok (), ⟨s.launched + 1, s.closed⟩)

/-- The page work between launch and close (lines 114-124): on the
close-failure path the work itself succeeds and yields the pushed value. -/
def pageWork : UrlBehavior → Except String String
  | UrlBehavior.launchFails e => Except.error e
  | UrlBehavior.failsAfterLaunch e => Except.error e
  | UrlBehavior.closeFails v _ => Except.ok v
  | UrlBehavior.succeeds v => Except.ok v

/-- Model of a successful `await browser.close()` (line 125): reached only at
the end of the `try` body — there is no `finally` in `DashAgent.browse`. -/
def closeOp (s : Sessions) : Sessions := ⟨s.launched, s.closed + 1⟩

/-- The awaited `browser.close()` call (line 125) as a fallible step: on the
close-failure path it throws and the session is not closed. -/
def closeAttempt (b : UrlBehavior) (s : Sessions) : Except String Unit × Sessions :=
  match b with
  | UrlBehavior.closeFails _ e => (Except.error e, s)
  | _ => (Except.ok (), closeOp s)

/-- One iteration of the URL loop of `DashAgent.browse` (lines 111-129):
`try { launch; page work; push value; close } catch { push error string }`.
The pushed value precedes `browser.close()`, so when the close itself throws
the `catch` pushes the error string as a second entry for the same URL. -/
def browseOne (url : String) (b : UrlBehavior) (s0 : Sessions) :
    List String × Sessions :=
  match launchOp b s0 with
  | (Except.error e, s1) => ([browseErrorString url e], s1)
  | (Except.ok _, s1) =>
    match pageWork b with
    | Except.error e => ([browseErrorString url e], s1)
    | Except.ok v =>
      match closeAttempt b s1 with
      | (Except.ok _, s2) => ([v], s2)
      | (Except.error e, s2) => ([v, browseErrorString url e], s2)

/-- Model of `DashAgent.browse` (lines 109-132): the sequential `for (const url of
urls)` loop; the `responses` array is the in-order concatenation of what each
iteration pushes. -/
def browse : List (String × UrlBehavior) → Sessions → List String × Sessions
  | [], s => ([], s)
  | (url, b) :: rest, s =>
    let r := browseOne url b s
    let rest' := browse rest r.2
    (r.1 ++ rest'.1, rest'.2)

/-- The responses `DashAgent.browse` pushes for one URL: a single entry,
except on the close-failure path, where the value and then the error string
are both pushed. -/
def browseRes (url : String) : UrlBehavior → List String
  | UrlBehavior.launchFails e => [browseErrorString url e]
  | UrlBehavior.failsAfterLaunch e => [browseErrorString url e]
  | UrlBehavior.closeFails v e => [v, browseErrorString url e]
  | UrlBehavior.succeeds v => [v]

/-- The single response of a URL whose iteration does not hit the
close-failure path (the value on the unreachable fourth case is
irrelevant under that proviso). -/
def oneRes (url : String) : UrlBehavior → String
  | UrlBehavior.launchFails e => browseErrorString url e
  | UrlBehavior.failsAfterLaunch e => browseErrorString url e
  | UrlBehavior.closeFails v _ => v
  | UrlBehavior.succeeds v => v

/-- The full `responses` array over a URL list, in input order. -/
def browseAll : List (String × UrlBehavior) → List String
  | [] => []
  | p :: rest => browseRes p.1 p.2 ++ browseAll rest

end DashAgent

/-- Sessions launched by a `browse` call: every behavior except a failing
`launch` launches one. -/
def launchContribution : UrlBehavior → Nat
  | UrlBehavior.launchFails _ => 0
  | _ => 1

/-- Sessions closed by a `browse` call: only an iteration whose
`browser.close()` is reached and succeeds closes its session; an error
before the close, or a throwing close, leaves it open. -/
def closeContribution : UrlBehavior → Nat
  | UrlBehavior.succeeds _ => 1
  | _ => 0

/-- Total sessions launched over a URL list. -/
def countLaunched : List (String × UrlBehavior) → Nat
  | [] => 0
  | p :: rest => launchContribution p.2 + countLaunched rest

/-- Total sessions closed over a URL list. -/
def countClosed : List (String × UrlBehavior) → Nat
  | [] => 0
  | p :: rest => closeContribution p.2 + countClosed rest

/-- One message of the conversation transcript. -/
structure ChatMessage where
  role : String
  content : String
deriving DecidableEq

/-- The apology text built in the `catch` of `onChatMessage` (line 72),
with `String(error)` spliced in. -/
def apologyContent (err : String) : String :=
  "I encountered an error while trying to perform a task: " ++ err ++
    ". Let's continue our conversation. How can I assist you further?"

/-- The synthetic assistant message pushed by the `catch` (lines 69-77). -/
def apologyMessage (err : String) : ChatMessage :=
  ⟨"assistant", apologyContent err⟩

/-- Outcome of the guarded region of `onChatMessage`'s `execute` callback
(`processToolCalls` plus the streaming calls, lines 45-64). -/
inductive PipelineOutcome
  | ok (processed : List ChatMessage)
  | raise (err : String)
deriving DecidableEq

/-- How the chat turn ends. The code never produces `aborted`: both branches
return a data-stream response. -/
inductive TurnOutcome
  | streamedNormally
  | recoveredAndContinued
  | aborted
deriving DecidableEq

namespace DashAgent

/-- The `execute` callback of `onChatMessage` (lines 43-87): on success the
transcript is untouched by this handler; on a thrown error the `catch`
pushes exactly one synthetic assistant apology and streams a continuation
instead of propagating. -/
def onChatMessage (messages : List ChatMessage) :
    PipelineOutcome → List ChatMessage × TurnOutcome
  | PipelineOutcome.ok _ => (messages, TurnOutcome.streamedNormally)
  | PipelineOutcome.raise err =>
    (messages ++ [apologyMessage err], TurnOutcome.recoveredAndContinued)

end DashAgent

/-- One entry of the tool registry: its name and whether the `tool({...})`
definition carries an `execute` function. -/
structure ToolDef where
  name : String
  hasExec : Bool
deriving DecidableEq

/-- The tool `getWeatherInformation` (lines 21-25): the `execute` function is omitted,
making it require human confirmation. -/
def getWeatherInformation : ToolDef := ⟨"getWeatherInformation", false⟩

/-- The exported `tools` registry (lines 342-371), each entry tagged with
whether its definition includes an `execute` function. -/
def tools : List ToolDef :=
  [getWeatherInformation,
   ⟨"getLocalTime", true⟩,
   ⟨"scheduleTask", true⟩,
   ⟨"getScheduledTasks", true⟩,
   ⟨"cancelScheduledTask", true⟩,
   ⟨"browse", true⟩,
   ⟨"findGolfCourseWebsite", true⟩,
   ⟨"findTeeTimes", true⟩]

/-- The keys of the exported `executions` object (lines 378-383). -/
def executions : List String := ["getWeatherInformation"]

/-- The `execute` function of `getLocalTime` (lines 35-38): logs and returns
the constant `"10am"`. -/
def getLocalTime (location : String) : String := "10am"

/-! ## Helper lemmas -/

theorem toList_append (s t : String) : (s ++ t).toList = s.toList ++ t.toList := by
  cases s
  cases t
  rfl

theorem isPre_self_append (n post : List Char) : isPre n (n ++ post) = true := by
  induction n with
  | nil => rfl
  | cons c cs ih => simp [isPre, ih]

theorem hasSub_of_isPre {n hay : List Char} (h : isPre n hay = true) :
    hasSub n hay = true := by
  cases hay with
  | nil => simpa [hasSub] using h
  | cons c t => simp [hasSub, h]

theorem hasSub_append_left {n hay : List Char} (pre : List Char)
    (h : hasSub n hay = true) : hasSub n (pre ++ hay) = true := by
  induction pre with
  | nil => simpa using h
  | cons c t ih => simp [hasSub, ih]

theorem hasSub_self_append (n post : List Char) : hasSub n (n ++ post) = true :=
  hasSub_of_isPre (isPre_self_append n post)

theorem apology_mentions (err : String) :
    hasSub err.toList (apologyContent err).toList = true := by
  unfold apologyContent
  rw [toList_append, toList_append, List.append_assoc]
  exact hasSub_append_left _ (hasSub_self_append _ _)

theorem browseOne_fst (url : String) (b : UrlBehavior) (s : Sessions) :
    (DashAgent.browseOne url b s).1 = DashAgent.browseRes url b := by
  cases b <;> rfl

theorem browse_fst (l : List (String × UrlBehavior)) :
    ∀ s, (DashAgent.browse l s).1 = DashAgent.browseAll l := by
  induction l with
  | nil => intro s; rfl
  | cons p rest ih =>
    intro s
    obtain ⟨u, b⟩ := p
    simp only [DashAgent.browse, DashAgent.browseAll]
    rw [browseOne_fst, ih]

theorem browseRes_singleton (u : String) (b : UrlBehavior)
    (h : isCloseFails b = false) :
    DashAgent.browseRes u b = [DashAgent.oneRes u b] := by
  cases b with
  | launchFails e => rfl
  | failsAfterLaunch e => rfl
  | closeFails v e => simp [isCloseFails] at h
  | succeeds v => rfl

theorem browseAll_map (l : List (String × UrlBehavior))
    (h : ∀ p ∈ l, isCloseFails p.2 = false) :
    DashAgent.browseAll l = l.map fun p => DashAgent.oneRes p.1 p.2 := by
  induction l with
  | nil => rfl
  | cons p rest ih =>
    simp only [DashAgent.browseAll, List.map_cons]
    rw [browseRes_singleton p.1 p.2 (h p (List.mem_cons_self p rest)),
      ih fun q hq => h q (List.mem_cons_of_mem p hq)]
    rfl

theorem browse_sessions (l : List (String × UrlBehavior)) :
    ∀ s : Sessions,
      (DashAgent.browse l s).2.launched = s.launched + countLaunched l ∧
      (DashAgent.browse l s).2.closed = s.closed + countClosed l := by
  induction l with
  | nil =>
    intro s
    exact ⟨rfl, rfl⟩
  | cons p rest ih =>
    intro s
    obtain ⟨u, b⟩ := p
    have hb := ih (DashAgent.browseOne u b s).2
    cases b <;>
      simp [DashAgent.browse, DashAgent.browseOne, DashAgent.launchOp, DashAgent.pageWork,
        DashAgent.closeOp, DashAgent.closeAttempt, countLaunched, countClosed,
        launchContribution, closeContribution] at hb ⊢ <;>
      omega

theorem countClosed_le_countLaunched (l : List (String × UrlBehavior)) :
    countClosed l ≤ countLaunched l := by
  induction l with
  | nil => exact Nat.le_refl 0
  | cons p rest ih =>
    have h : closeContribution p.2 ≤ launchContribution p.2 := by
      cases p.2 <;> simp [closeContribution, launchContribution]
    simp only [countClosed, countLaunched]
    omega

theorem scanForHref_append (l r : List Elem)
    (h : ∀ e ∈ l, matchesTeePattern e.text = false) :
    scanForHref (l ++ r) = scanForHref r := by
  induction l with
  | nil => rfl
  | cons e t ih =>
    rw [List.cons_append]
    simp only [scanForHref, h e (List.mem_cons_self e t), Bool.false_eq_true, if_false]
    exact ih fun x hx => h x (List.mem_cons_of_mem e hx)

theorem scanForHref_eq_none (l : List Elem)
    (h : ∀ e ∈ l, matchesTeePattern e.text = false) : scanForHref l = none := by
  have h2 := scanForHref_append l [] h
  rwa [List.append_nil] at h2

theorem isEmpty_append_cons (l : List Elem) (x : Elem) (r : List Elem) :
    (l ++ x :: r).isEmpty = false := by
  cases l <;> rfl

theorem findHrefLoop_eq_none {page : List Elem}
    (h : ∀ e ∈ page, matchesTeePattern e.text = false) : findHrefLoop page = none := by
  have ha : (if (anchors page).isEmpty then none else scanForHref (anchors page))
      = (none : Option String) := by
    split
    · rfl
    · exact scanForHref_eq_none _ fun e he => h e (List.mem_of_mem_filter he)
  simp only [findHrefLoop]
  rw [ha]
  simp only [truthy, Bool.false_eq_true, if_false]
  split
  · rfl
  · exact scanForHref_eq_none _ fun e he => h e (List.mem_of_mem_filter he)

theorem anchors_append_cons (pre post : List Elem) (A : Elem) (hA : A.tag = Tag.a) :
    anchors (pre ++ A :: post) = anchors pre ++ A :: anchors post := by
  simp [anchors, List.filter_append, List.filter_cons, hA]

theorem buttons_append_cons (pre post : List Elem) (B : Elem) (hB : B.tag = Tag.button) :
    buttons (pre ++ B :: post) = buttons pre ++ B :: buttons post := by
  simp [buttons, List.filter_append, List.filter_cons, hB]

theorem find?_first {p : Elem → Bool} (pre post : List Elem) (x : Elem)
    (hpre : ∀ e ∈ pre, p e = false) (hx : p x = true) :
    (pre ++ x :: post).find? p = some x := by
  induction pre with
  | nil => simp [List.find?_cons_of_pos, hx]
  | cons a t ih =>
    rw [List.cons_append,
      List.find?_cons_of_neg _ (by simp [hpre a (List.mem_cons_self a t)])]
    exact ih fun e he => hpre e (List.mem_cons_of_mem a he)

theorem findDateStrategy_skip (resolve : String → Option String) (sel : String)
    (rest : List String) (hsel : resolvesToInput resolve sel = false) :
    findDateStrategy resolve (sel :: rest) = findDateStrategy resolve rest := by
  unfold resolvesToInput at hsel
  cases hres : resolve sel with
  | none => simp [findDateStrategy, hres]
  | some t =>
    rw [hres] at hsel
    simp only [beq_iff_eq] at hsel
    simp [findDateStrategy, hres, hsel]

theorem triedStrategies_skip (resolve : String → Option String) (sel : String)
    (rest : List String) (hsel : resolvesToInput resolve sel = false) :
    triedStrategies resolve (sel :: rest) = sel :: triedStrategies resolve rest := by
  unfold resolvesToInput at hsel
  cases hres : resolve sel with
  | none => simp [triedStrategies, hres]
  | some t =>
    rw [hres] at hsel
    simp only [beq_iff_eq] at hsel
    simp [triedStrategies, hres, hsel]

theorem findDateStrategy_append (resolve : String → Option String) (pre rest : List String)
    (hpre : ∀ s ∈ pre, resolvesToInput resolve s = false) :
    findDateStrategy resolve (pre ++ rest) = findDateStrategy resolve rest := by
  induction pre with
  | nil => rfl
  | cons a t ih =>
    rw [List.cons_append, findDateStrategy_skip resolve a _ (hpre a (List.mem_cons_self a t))]
    exact ih fun s hs => hpre s (List.mem_cons_of_mem a hs)

theorem triedStrategies_append (resolve : String → Option String) (pre rest : List String)
    (hpre : ∀ s ∈ pre, resolvesToInput resolve s = false) :
    triedStrategies resolve (pre ++ rest) = pre ++ triedStrategies resolve rest := by
  induction pre with
  | nil => rfl
  | cons a t ih =>
    rw [List.cons_append, triedStrategies_skip resolve a _ (hpre a (List.mem_cons_self a t)),
      ih fun s hs => hpre s (List.mem_cons_of_mem a hs)]
    rfl

theorem findDateStrategy_cons_input (resolve : String → Option String) (k : String)
    (post : List String) (hk : resolvesToInput resolve k = true) :
    findDateStrategy resolve (k :: post) = some k := by
  unfold resolvesToInput at hk
  cases hres : resolve k with
  | none => rw [hres] at hk; exact absurd hk (by simp)
  | some t =>
    rw [hres] at hk
    simp only [beq_iff_eq] at hk
    subst hk
    simp [findDateStrategy, hres]

theorem triedStrategies_cons_input (resolve : String → Option String) (k : String)
    (post : List String) (hk : resolvesToInput resolve k = true) :
    triedStrategies resolve (k :: post) = [k] := by
  unfold resolvesToInput at hk
  cases hres : resolve k with
  | none => rw [hres] at hk; exact absurd hk (by simp)
  | some t =>
    rw [hres] at hk
    simp only [beq_iff_eq] at hk
    subst hk
    simp [triedStrategies, hres]

/-! ## Claims -/

/-- Claim C2: over any element sequence, if no element's text matches the
entry-point pattern the selector loop yields no href and the whole entry
phase reports no entry point (no false positives, no fabricated href); and
if the first pattern-matching element of the sequence is a link carrying an
href (a present attribute resolves to a nonempty DOM `href`), the loop
returns exactly that link's href and the engine navigates directly to it. -/
theorem c2_entry_point_matcher (page : List Elem) :
    ((∀ e ∈ page, matchesTeePattern e.text = false) →
      findHrefLoop page = none ∧ entryPhase page = EntryOutcome.noEntry) ∧
    (∀ (pre post : List Elem) (A : Elem) (h : String),
      page = pre ++ A :: post →
      (∀ e ∈ pre, matchesTeePattern e.text = false) →
      matchesTeePattern A.text = true → A.tag = Tag.a → A.href = some h → h ≠ "" →
      findHrefLoop page = some h ∧ entryPhase page = EntryOutcome.direct h) := by
  constructor
  · intro hno
    have hloop := findHrefLoop_eq_none hno
    refine ⟨hloop, ?_⟩
    have hfm : firstMatch page = none :=
      List.find?_eq_none.mpr fun e he => by simp [hno e he]
    simp [entryPhase, hloop, truthy, hfm]
  · intro pre post A h hpage hpre hA htag hhref hne
    subst hpage
    have hanch : anchors (pre ++ A :: post) = anchors pre ++ A :: anchors post :=
      anchors_append_cons pre post A htag
    have hscan : scanForHref (anchors pre ++ A :: anchors post) = some h := by
      rw [scanForHref_append (anchors pre) (A :: anchors post)
        fun e he => hpre e (List.mem_of_mem_filter he)]
      simp [scanForHref, hA, htag, hhref]
    have hA2 : (if (anchors (pre ++ A :: post)).isEmpty then none
        else scanForHref (anchors (pre ++ A :: post))) = some h := by
      rw [hanch, isEmpty_append_cons]
      simpa using hscan
    have htr : truthy (some h) = true := by simp [truthy, hne]
    have hloop : findHrefLoop (pre ++ A :: post) = some h := by
      simp only [findHrefLoop]
      rw [hA2, htr]
      simp
    refine ⟨hloop, ?_⟩
    simp [entryPhase, hloop, htr]

/-- Claim C2 witness: a page with no matching text yields the no-entry
outcome, and a page whose first matching element is the anchor
"Book Tee Times" yields exactly that anchor's href. -/
theorem c2_entry_point_matcher_witness :
    entryPhase [⟨Tag.a, "Home", some "https://h", none⟩] = EntryOutcome.noEntry ∧
    findHrefLoop [⟨Tag.button, "Menu", none, none⟩,
      ⟨Tag.a, "Book Tee Times", some "https://x/tee", none⟩] = some "https://x/tee" :=
  ⟨((c2_entry_point_matcher [⟨Tag.a, "Home", some "https://h", none⟩]).1 (by decide)).2,
   ((c2_entry_point_matcher [⟨Tag.button, "Menu", none, none⟩,
        ⟨Tag.a, "Book Tee Times", some "https://x/tee", none⟩]).2
      [⟨Tag.button, "Menu", none, none⟩] []
      ⟨Tag.a, "Book Tee Times", some "https://x/tee", none⟩ "https://x/tee"
      rfl (by decide) (by decide) rfl rfl (by decide)).1⟩

/-- Claim C3, counterexample to the claim as stated: on a page whose first
pattern-matching element (in document order) is a button with no nested
link, followed by a pattern-matching anchor, the code does not produce the
click-only signal — the anchor-category scan runs first over the whole
document and wins, so the later anchor's href is returned. -/
theorem c3_anchor_preempts_button :
    firstMatch [⟨Tag.button, "Reserve", none, none⟩,
        ⟨Tag.a, "tee times", some "https://y", none⟩]
      = some ⟨Tag.button, "Reserve", none, none⟩ ∧
    (⟨Tag.button, "Reserve", none, none⟩ : Elem).nestedHref = none ∧
    entryPhase [⟨Tag.button, "Reserve", none, none⟩,
        ⟨Tag.a, "tee times", some "https://y", none⟩]
      ≠ EntryOutcome.clicked ⟨Tag.button, "Reserve", none, none⟩ ∧
    entryPhase [⟨Tag.button, "Reserve", none, none⟩,
        ⟨Tag.a, "tee times", some "https://y", none⟩]
      = EntryOutcome.direct "https://y" := by
  refine ⟨by decide, rfl, by decide, by decide⟩

/-- Claim C3, amended: for an element sequence whose first pattern-matching
element is a button, provided additionally that no anchor in the sequence
matches the pattern (the anchor category is scanned first and would
otherwise win), the engine navigates to the button's nested link when it
carries one with a nonempty href, and otherwise produces the distinct
click-only outcome — clicking that button and waiting for navigation —
rather than no entry point, and without any exceptional outcome. -/
theorem c3_button_entry_amended (page pre post : List Elem) (B : Elem)
    (hpage : page = pre ++ B :: post)
    (hpre : ∀ e ∈ pre, matchesTeePattern e.text = false)
    (hB : matchesTeePattern B.text = true)
    (htag : B.tag = Tag.button)
    (hanch : ∀ e ∈ page, e.tag = Tag.a → matchesTeePattern e.text = false) :
    (∀ h : String, B.nestedHref = some h → h ≠ "" →
      entryPhase page = EntryOutcome.direct h) ∧
    (B.nestedHref = none → entryPhase page = EntryOutcome.clicked B) := by
  subst hpage
  have hAnone : (if (anchors (pre ++ B :: post)).isEmpty then none
      else scanForHref (anchors (pre ++ B :: post))) = (none : Option String) := by
    split
    · rfl
    · refine scanForHref_eq_none _ fun e he => ?_
      have hm := List.mem_filter.mp he
      exact hanch e hm.1 (by simpa using hm.2)
  have hbtns : buttons (pre ++ B :: post) = buttons pre ++ B :: buttons post :=
    buttons_append_cons pre post B htag
  have hbne : (buttons (pre ++ B :: post)).isEmpty = false := by
    rw [hbtns]; exact isEmpty_append_cons _ _ _
  constructor
  · intro h hnest hne
    have hbscan : scanForHref (buttons (pre ++ B :: post)) = some h := by
      rw [hbtns, scanForHref_append (buttons pre) (B :: buttons post)
        fun e he => hpre e (List.mem_of_mem_filter he)]
      simp [scanForHref, hB, htag, hnest]
    have hloop : findHrefLoop (pre ++ B :: post) = some h := by
      simp only [findHrefLoop]
      rw [hAnone]
      simp [truthy, hbne, hbscan]
    simp [entryPhase, hloop, truthy, hne]
  · intro hnest
    have hbscan : scanForHref (buttons (pre ++ B :: post)) = none := by
      rw [hbtns, scanForHref_append (buttons pre) (B :: buttons post)
        fun e he => hpre e (List.mem_of_mem_filter he)]
      simp [scanForHref, hB, htag, hnest]
    have hloop : findHrefLoop (pre ++ B :: post) = none := by
      simp only [findHrefLoop]
      rw [hAnone]
      simp [truthy, hbne, hbscan]
    have hfm : firstMatch (pre ++ B :: post) = some B :=
      find?_first pre post B hpre hB
    simp [entryPhase, hloop, truthy, hfm]

/-- Claim C3 witness: a matching button with a nested link yields direct
navigation to the nested href; the same button without one yields the
click-only outcome. -/
theorem c3_button_entry_amended_witness :
    entryPhase [⟨Tag.button, "Reserve", none, some "https://z/book"⟩]
      = EntryOutcome.direct "https://z/book" ∧
    entryPhase [⟨Tag.button, "Reserve", none, none⟩]
      = EntryOutcome.clicked ⟨Tag.button, "Reserve", none, none⟩ :=
  ⟨(c3_button_entry_amended [⟨Tag.button, "Reserve", none, some "https://z/book"⟩] [] []
      ⟨Tag.button, "Reserve", none, some "https://z/book"⟩
      rfl (by decide) (by decide) rfl (by decide)).1 "https://z/book" rfl (by decide),
   (c3_button_entry_amended [⟨Tag.button, "Reserve", none, none⟩] [] []
      ⟨Tag.button, "Reserve", none, none⟩
      rfl (by decide) (by decide) rfl (by decide)).2 rfl⟩

/-- Claim C4: in any priority-ordered selector list, if strategy `k` is the
first whose selector resolves to an actual input-tagged element, the
date-setting loop chooses `k` — setting that element's value and
dispatching `input` and `change` events — tries exactly the strategies up
to and including `k` and none after it, and any strategy resolving to a
non-input element (or not resolving) is skipped with the scan continuing. -/
theorem c4_date_strategy_priority (resolve : String → Option String)
    (pre post : List String) (k d : String)
    (hpre : ∀ s ∈ pre, resolvesToInput resolve s = false)
    (hk : resolvesToInput resolve k = true) :
    findDateStrategy resolve (pre ++ k :: post) = some k ∧
    triedStrategies resolve (pre ++ k :: post) = pre ++ [k] ∧
    dateActions resolve (pre ++ k :: post) d =
      [NavAction.setValue k d, NavAction.dispatchInput k, NavAction.dispatchChange k,
       NavAction.sleep 2000] ∧
    (∀ (sel : String) (rest : List String), resolvesToInput resolve sel = false →
      findDateStrategy resolve (sel :: rest) = findDateStrategy resolve rest) := by
  have h1 : findDateStrategy resolve (pre ++ k :: post) = some k := by
    rw [findDateStrategy_append resolve pre _ hpre]
    exact findDateStrategy_cons_input resolve k post hk
  refine ⟨h1, ?_, by simp [dateActions, h1], fun sel rest => findDateStrategy_skip resolve sel rest⟩
  rw [triedStrategies_append resolve pre _ hpre,
    triedStrategies_cons_input resolve k post hk]

/-- Claim C4 witness: with the first two selectors of the source's list not
resolving and the third resolving to an input, the loop picks the third,
tries exactly the first three, and performs the set-and-dispatch actions on
it. -/
theorem c4_date_strategy_priority_witness :
    findDateStrategy
        (fun s => if s == ".datepicker" then some "div"
          else if s == "input[id*=\"date\"]" then some "input" else none)
        dateSelectors = some "input[id*=\"date\"]" ∧
    triedStrategies
        (fun s => if s == ".datepicker" then some "div"
          else if s == "input[id*=\"date\"]" then some "input" else none)
        dateSelectors
      = ["input[type=\"date\"]", "input[name*=\"date\"]", "input[id*=\"date\"]"] :=
  ⟨(c4_date_strategy_priority
      (fun s => if s == ".datepicker" then some "div"
        else if s == "input[id*=\"date\"]" then some "input" else none)
      ["input[type=\"date\"]", "input[name*=\"date\"]"]
      [".datepicker", ".date-picker", "[aria-label*=\"date\"]"]
      "input[id*=\"date\"]" "2024-06-01" (by decide) (by decide)).1,
   (c4_date_strategy_priority
      (fun s => if s == ".datepicker" then some "div"
        else if s == "input[id*=\"date\"]" then some "input" else none)
      ["input[type=\"date\"]", "input[name*=\"date\"]"]
      [".datepicker", ".date-picker", "[aria-label*=\"date\"]"]
      "input[id*=\"date\"]" "2024-06-01" (by decide) (by decide)).2.1⟩

/-- Claim C5: when no element on the landing page matches the entry-point
pattern, `findTeeTimes` terminates with the not-found outcome, whose
returned value is the literal string
"No tee times link or button found on the landing page." rather than a
thrown exception; and when the selector loop found no usable href but a
matching element exists, the first such element is clicked and the engine
waits for navigation with a 10000 ms timeout. -/
theorem c5_not_found_literal (page : List Elem) (date : Option String)
    (resolve : String → Option String) (u : String) :
    ((∀ e ∈ page, matchesTeePattern e.text = false) →
      runFindTeeTimes page date resolve u = (FindResult.notFound, []) ∧
      resultString FindResult.notFound =
        "No tee times link or button found on the landing page.") ∧
    (∀ e : Elem, truthy (findHrefLoop page) = false → firstMatch page = some e →
      runFindTeeTimes page date resolve u =
        (FindResult.success u,
         NavAction.clickElem e :: NavAction.waitForNav 10000 :: dateActs resolve date)) := by
  constructor
  · intro hno
    have hloop := findHrefLoop_eq_none hno
    have hfm : firstMatch page = none :=
      List.find?_eq_none.mpr fun e he => by simp [hno e he]
    refine ⟨?_, rfl⟩
    have hentry : entryPhase page = EntryOutcome.noEntry := by
      simp [entryPhase, hloop, truthy, hfm]
    simp [runFindTeeTimes, hentry]
  · intro e hfalse hfm
    have hentry : entryPhase page = EntryOutcome.clicked e := by
      simp [entryPhase, hfalse, hfm]
    simp [runFindTeeTimes, hentry]

/-- Claim C5 witness: a page with no matching text returns the literal
not-found string, and a page whose only matching element is a link-less
button gets that button clicked followed by the 10-second navigation
wait. -/
theorem c5_not_found_literal_witness :
    runFindTeeTimes [⟨Tag.a, "Contact", some "https://c", none⟩] none (fun _ => none)
        "https://final" = (FindResult.notFound, []) ∧
    runFindTeeTimes [⟨Tag.button, "Reserve", none, none⟩] none (fun _ => none)
        "https://final" =
      (FindResult.success "https://final",
       [NavAction.clickElem ⟨Tag.button, "Reserve", none, none⟩,
        NavAction.waitForNav 10000]) :=
  ⟨((c5_not_found_literal [⟨Tag.a, "Contact", some "https://c", none⟩] none
      (fun _ => none) "https://final").1 (by decide)).1,
   (c5_not_found_literal [⟨Tag.button, "Reserve", none, none⟩] none
      (fun _ => none) "https://final").2
     ⟨Tag.button, "Reserve", none, none⟩ (by decide) (by decide)⟩

/-- Claim C6: when an entry point was found, failure of every date-selector
strategy is non-fatal — `findTeeTimes` still returns the page's current URL
as the success result, with a value indistinguishable from a run in which
the date was set (same result for any other resolution of the selectors);
no page actions are performed when no strategy wins, and after a successful
set the trace ends with the 2000 ms pause before the final URL is read. -/
theorem c6_date_failure_nonfatal (page : List Elem) (d : String)
    (resolve resolveB : String → Option String) (u : String)
    (hentry : entryPhase page ≠ EntryOutcome.noEntry) :
    (runFindTeeTimes page (some d) resolve u).1 = FindResult.success u ∧
    (runFindTeeTimes page (some d) resolve u).1 =
      (runFindTeeTimes page (some d) resolveB u).1 ∧
    (findDateStrategy resolve dateSelectors = none →
      dateActs resolve (some d) = []) ∧
    (∀ sel : String, findDateStrategy resolve dateSelectors = some sel →
      dateActs resolve (some d) =
        [NavAction.setValue sel d, NavAction.dispatchInput sel,
         NavAction.dispatchChange sel, NavAction.sleep 2000]) := by
  have hsucc : ∀ r : String → Option String,
      (runFindTeeTimes page (some d) r u).1 = FindResult.success u := by
    intro r
    cases hen : entryPhase page with
    | noEntry => exact absurd hen hentry
    | direct h => simp [runFindTeeTimes, hen]
    | clicked e => simp [runFindTeeTimes, hen]
  refine ⟨hsucc resolve, by rw [hsucc resolve, hsucc resolveB], ?_, ?_⟩
  · intro hnone
    simp [dateActs, dateActions, hnone]
  · intro sel hsel
    simp [dateActs, dateActions, hsel]

/-- Claim C6 witness: on a page with a direct tee-times link, a resolution
under which every date strategy fails still yields the success result with
the current URL and performs no date actions. -/
theorem c6_date_failure_nonfatal_witness :
    (runFindTeeTimes [⟨Tag.a, "Tee Times", some "https://t", none⟩]
        (some "2024-06-01") (fun _ => none) "https://t").1
      = FindResult.success "https://t" ∧
    dateActs (fun _ => none) (some "2024-06-01") = [] :=
  ⟨(c6_date_failure_nonfatal [⟨Tag.a, "Tee Times", some "https://t", none⟩]
      "2024-06-01" (fun _ => none) (fun _ => some "input") "https://t" (by decide)).1,
   (c6_date_failure_nonfatal [⟨Tag.a, "Tee Times", some "https://t", none⟩]
      "2024-06-01" (fun _ => none) (fun _ => some "input") "https://t" (by decide)).2.2.1
     rfl⟩

/-- Claim C1, corrected: in `findTeeTimes` the page opened inside the inner
`try` is closed exactly once on every exit path (normal return, not-found
return, or thrown exception, all converted to a returned string), and a
failing `newPage` opens nothing; but in `DashAgent.browse` a launched
browser session is closed only when its URL is processed to completion —
the error path skips `browser.close()`, so closed sessions count exactly
the successful iterations and never exceed the launched ones. -/
theorem c1_resource_cleanup_amended :
    (∀ np body,
      (findTeeTimesSession np body ⟨0, 0⟩).2.closed =
        (findTeeTimesSession np body ⟨0, 0⟩).2.opened ∧
      (findTeeTimesSession np body ⟨0, 0⟩).2.opened ≤ 1 ∧
      (np = NewPageResult.succeeds →
        (findTeeTimesSession np body ⟨0, 0⟩).2.opened = 1) ∧
      ∃ msg, (findTeeTimesSession np body ⟨0, 0⟩).1 = Except.ok msg) ∧
    (∀ l, (DashAgent.browse l ⟨0, 0⟩).2.launched = countLaunched l ∧
      (DashAgent.browse l ⟨0, 0⟩).2.closed = countClosed l ∧
      countClosed l ≤ countLaunched l) := by
  constructor
  · intro np body
    cases np with
    | fails e =>
      refine ⟨rfl, Nat.zero_le 1, fun h => NewPageResult.noConfusion h,
        ⟨teeErrorString e, rfl⟩⟩
    | succeeds =>
      cases body with
      | normal r => exact ⟨rfl, Nat.le_refl 1, fun _ => rfl, ⟨resultString r, rfl⟩⟩
      | raise err => exact ⟨rfl, Nat.le_refl 1, fun _ => rfl, ⟨teeErrorString err, rfl⟩⟩
  · intro l
    have h := browse_sessions l ⟨0, 0⟩
    exact ⟨by rw [h.1]; exact Nat.zero_add _, by rw [h.2]; exact Nat.zero_add _,
      countClosed_le_countLaunched l⟩

/-- Claim C1, counterexample to the claim as stated: browsing a single URL
whose processing throws after the browser was launched leaves the launched
session unclosed (`browser.close()` sits at the end of the `try` body, with
no `finally`). -/
theorem c1_browse_error_leaves_session_open :
    (DashAgent.browse [("http://x", UrlBehavior.failsAfterLaunch "boom")] ⟨0, 0⟩).2.launched
        = 1 ∧
    (DashAgent.browse [("http://x", UrlBehavior.failsAfterLaunch "boom")] ⟨0, 0⟩).2.closed
        = 0 :=
  ⟨rfl, rfl⟩

/-- Claim C1 witness: instantiating the amended claim at a session whose body
throws mid-flow, the page is still opened once and closed once. -/
theorem c1_resource_cleanup_amended_witness :
    (findTeeTimesSession NewPageResult.succeeds (BodyOutcome.raise "boom") ⟨0, 0⟩).2.opened
        = 1 ∧
    (findTeeTimesSession NewPageResult.succeeds (BodyOutcome.raise "boom") ⟨0, 0⟩).2.closed
        = (findTeeTimesSession NewPageResult.succeeds (BodyOutcome.raise "boom") ⟨0, 0⟩).2.opened :=
  ⟨(c1_resource_cleanup_amended.1 NewPageResult.succeeds (BodyOutcome.raise "boom")).2.2.1 rfl,
   (c1_resource_cleanup_amended.1 NewPageResult.succeeds (BodyOutcome.raise "boom")).1⟩

/-- Claim C7, counterexample to the claim as stated: one URL whose
`browser.close()` throws after the value was pushed yields two entries for
that URL — the value and then the error string — so the result list is
longer than the input and the claimed one-result-per-URL position
correspondence fails. -/
theorem c7_close_failure_duplicates_entry :
    (DashAgent.browse [("http://x", UrlBehavior.closeFails "<html>" "closeboom")]
        ⟨0, 0⟩).1
      = ["<html>", "Error browsing URL http://x: closeboom"] ∧
    (DashAgent.browse [("http://x", UrlBehavior.closeFails "<html>" "closeboom")]
        ⟨0, 0⟩).1.length
      ≠ [("http://x", UrlBehavior.closeFails "<html>" "closeboom")].length :=
  ⟨rfl, by decide⟩

/-- Claim C7, amended: `DashAgent.browse` processes its URLs strictly
sequentially, one session at a time, and the returned list is the in-order
concatenation of each URL's pushed responses; on every run in which no
iteration's `browser.close()` throws after its push, this is exactly one
result per input URL in input order, with a failure while processing URL `i`
placing the error-describing string at position `i` and processing
continuing with URL `i+1`; a throwing close after the push instead makes the
`catch` push the error string as a second entry for that URL. -/
theorem c7_browse_sequential_results (l : List (String × UrlBehavior)) (s : Sessions) :
    (DashAgent.browse l s).1 = DashAgent.browseAll l ∧
    (∀ u v e : String, DashAgent.browseRes u (UrlBehavior.closeFails v e)
      = [v, browseErrorString u e]) ∧
    ((∀ p ∈ l, isCloseFails p.2 = false) →
      (DashAgent.browse l s).1.length = l.length ∧
      (DashAgent.browse l s).1 = l.map (fun p => DashAgent.oneRes p.1 p.2) ∧
      (∀ i : Nat, (DashAgent.browse l s).1[i]? =
        (l[i]?).map fun p => DashAgent.oneRes p.1 p.2) ∧
      (∀ (i : Nat) (u e : String), l[i]? = some (u, UrlBehavior.failsAfterLaunch e) →
        (DashAgent.browse l s).1[i]? = some (browseErrorString u e))) := by
  have hall := browse_fst l s
  refine ⟨hall, fun u v e => rfl, ?_⟩
  intro hnc
  have hmap : (DashAgent.browse l s).1 = l.map fun p => DashAgent.oneRes p.1 p.2 := by
    rw [hall, browseAll_map l hnc]
  refine ⟨by rw [hmap]; exact List.length_map l _, hmap, ?_, ?_⟩
  · intro i
    rw [hmap]
    exact List.getElem?_map ..
  · intro i u e h
    rw [hmap, List.getElem?_map, h]
    rfl

/-- Claim C7 witness: a two-URL run with no close failure, where the first
URL fails after launch, yields the error string at position 0. -/
theorem c7_browse_sequential_results_witness :
    (DashAgent.browse
        [("http://a", UrlBehavior.failsAfterLaunch "boom"),
         ("http://b", UrlBehavior.succeeds "<html>")] ⟨0, 0⟩).1[0]?
      = some (browseErrorString "http://a" "boom") :=
  ((c7_browse_sequential_results
      [("http://a", UrlBehavior.failsAfterLaunch "boom"),
       ("http://b", UrlBehavior.succeeds "<html>")] ⟨0, 0⟩).2.2
    (by decide)).2.2.2 0 "http://a" "boom" rfl

/-- Claim C8: any exception escaping the guarded region of `onChatMessage`
is caught; the handler appends exactly one synthetic assistant message whose
content mentions the error, and the turn continues rather than aborting or
propagating. -/
theorem c8_chat_error_recovery (messages : List ChatMessage) (err : String) :
    DashAgent.onChatMessage messages (PipelineOutcome.raise err) =
      (messages ++ [apologyMessage err], TurnOutcome.recoveredAndContinued) ∧
    (DashAgent.onChatMessage messages (PipelineOutcome.raise err)).1.length =
      messages.length + 1 ∧
    (apologyMessage err).role = "assistant" ∧
    hasSub err.toList (apologyMessage err).content.toList = true ∧
    (DashAgent.onChatMessage messages (PipelineOutcome.raise err)).2 ≠ TurnOutcome.aborted :=
  ⟨rfl, by simp [DashAgent.onChatMessage], rfl, apology_mentions err,
    by simp [DashAgent.onChatMessage]⟩

/-- Claim C8 witness: instantiating the recovery path at a one-message
transcript and a concrete error appends exactly the apology message. -/
theorem c8_chat_error_recovery_witness :
    (DashAgent.onChatMessage [⟨"user", "hi"⟩] (PipelineOutcome.raise "boom")).1
      = [⟨"user", "hi"⟩, apologyMessage "boom"] := by
  rw [(c8_chat_error_recovery [⟨"user", "hi"⟩] "boom").1]
  rfl

/-- Claim C9: in the tool registry, `getWeatherInformation` is the unique
tool defined without an `execute` function, and every such confirm-required
tool name has a matching entry in the `executions` table. -/
theorem c9_confirm_required_has_execution :
    (∀ t ∈ tools, (t.hasExec = false ↔ t.name = "getWeatherInformation")) ∧
    (∀ t ∈ tools, t.hasExec = false → t.name ∈ executions) ∧
    "getWeatherInformation" ∈ executions := by
  decide

/-- Claim C9 witness: the confirm-required tool `getWeatherInformation`
itself has an entry in the `executions` table. -/
theorem c9_confirm_required_has_execution_witness :
    getWeatherInformation.name ∈ executions :=
  c9_confirm_required_has_execution.2.1 getWeatherInformation (by decide) rfl

/-- Claim C10: the autonomous `getLocalTime` tool returns the constant
`"10am"` for every location, so its result is independent of the input. -/
theorem c10_get_local_time_constant :
    (∀ location, getLocalTime location = "10am") ∧
    (∀ l1 l2, getLocalTime l1 = getLocalTime l2) :=
  ⟨fun _ => rfl, fun _ _ => rfl⟩

/-- Claim C10 witness: the tool result at a concrete location. -/
theorem c10_get_local_time_constant_witness : getLocalTime "Paris" = "10am" :=
  c10_get_local_time_constant.1 "Paris"

end AgentsStarter
